import Mathlib

/-!
Shallow embedding of the Graph Banner plugin core (`src/main.js`) and proofs
about its view-pool lifecycle, placement engine, ignore matcher, debounce
scheduler and settings snapshots.

DOM nodes, leaves and the host workspace are abstracted as follows:
containers are identified by natural numbers, a `GraphView`'s embedded node is
tracked by `hasNode` together with `attachedTo` (the container/mode pair whose
subtree currently holds the node), and the CSS classes `hidden` and
`graph-banner-visible` are tracked by the boolean fields `hiddenFlag` and
`visibleFlag`.  Host reinitialisations (`leaf.setViewState` with a file state)
and DOM insertions (`parent.insertAfter`) are recorded as explicit effects.
-/

namespace GraphBanner

/-- Default values from `DEFAULT_SETTINGS` in `src/main.js`. -/
def defaultMaxGraphViews : Nat := 2

/-- Default debounce quiet window (`layoutDebounceMs`) in ms. -/
def defaultLayoutDebounceMs : Nat := 80

/-- Default edit-mode behaviour (`showInEditMode`). -/
def defaultShowInEditMode : String := "compact"

/-- Default mobile behaviour (`mobileMode`). -/
def defaultMobileMode : String := "full"

/-! ### Ignore matcher (`matchIgnore` in `src/main.js`, lines 46-88)

JavaScript strings are modelled as `List Char` here (`String.prototype.trim`,
`startsWith`, `slice` and `includes` are re-expressed on character lists),
because the matcher's own semantics is character-based. -/

/-- JavaScript `String.prototype.trim`: drop whitespace from both ends. -/
def jsTrim (l : List Char) : List Char :=
  ((l.dropWhile Char.isWhitespace).reverse.dropWhile Char.isWhitespace).reverse

/-- Anchored wildcard matching with explicit recursion fuel.  `matchIgnore`
escapes every regex special character except `*` and rewrites `*` to `.*`,
producing an anchored pattern `^...$`; hence every pattern character is
literal except `*`, which matches any (possibly empty) run of characters.
Every recursive call decreases `p.length + s.length` by at least one while
consuming exactly one unit of fuel, and the pattern-exhausted base case needs
no fuel, so fuel `p.length + s.length` (as supplied by `globMatch`) is never
exhausted; the fuel only serves to make the recursion structural. -/
def globMatchFuel : Nat → List Char → List Char → Bool
  | _, [], s => s.isEmpty
  | Nat.succ fuel, '*' :: ps, [] => globMatchFuel fuel ps []
  | Nat.succ fuel, '*' :: ps, c :: s2 =>
      globMatchFuel fuel ps (c :: s2) || globMatchFuel fuel ('*' :: ps) s2
  | Nat.succ _, _ :: _, [] => false
  | Nat.succ fuel, pc :: ps, c :: s2 => pc == c && globMatchFuel fuel ps s2
  | 0, _ :: _, _ => false

/-- Anchored wildcard matching of a compiled `^...$` pattern against a path. -/
def globMatch (p s : List Char) : Bool :=
  globMatchFuel (p.length + s.length) p s

/-- Substring containment, as JavaScript `path.includes(p)`. -/
def isSubstring (needle : List Char) : List Char → Bool
  | [] => needle.isEmpty
  | c :: h => needle.isPrefixOf (c :: h) || isSubstring needle h

/-- How a single (already trimmed, non-negated) pattern is tested against the
path: wildcard patterns are matched anchored, wildcard-free patterns by
substring containment. -/
def patternMatches (p path : List Char) : Bool :=
  if p.contains '*' then globMatch p path
  else isSubstring p path

/-- The body of the `for (let raw of patterns)` loop in `matchIgnore`: update
the running ignored-state for one raw pattern line.  A falsy (empty) raw
line, a line blank after trimming, a `#` comment, and a `!` line empty after
stripping are skipped; a matching line overwrites the state with the line's
polarity. -/
def processLine (path : String) (ignored : Bool) (raw : String) : Bool :=
  if raw == "" then ignored
  else
    let p := jsTrim raw.toList
    if p = [] ∨ p.head? = some '#' then ignored
    else if p.head? = some '!' then
      let q := jsTrim p.tail
      if q = [] then ignored
      else if patternMatches q path.toList then false else ignored
    else if patternMatches p path.toList then true else ignored

/-- `matchIgnore(path, patterns)` from `src/main.js`: empty pattern lists never
ignore; otherwise the lines are folded in order over the running
ignored-state. -/
def matchIgnore (path : String) (patterns : List String) : Bool :=
  if patterns.isEmpty then false
  else patterns.foldl (processLine path) false

/-- Spec-side per-line verdict: `none` when the line is skipped (falsy raw
line, blank after trimming, comment, or empty after stripping `!`) or does not
match the path, `some false` for a matching negated line, `some true` for a
matching non-negated line. -/
def lineVerdict (path : String) (raw : String) : Option Bool :=
  if raw == "" then none
  else
    let p := jsTrim raw.toList
    if p = [] ∨ p.head? = some '#' then none
    else if p.head? = some '!' then
      let q := jsTrim p.tail
      if q = [] then none
      else if patternMatches q path.toList then some false else none
    else if patternMatches p path.toList then some true else none

/-! ### Settings (`DEFAULT_SETTINGS` / `this.settings`) -/

/-- The plugin settings fields the core logic reads.  A field that the
persisted data may leave undefined is modelled as an `Option`; the source
defends against that with `||` / `??` fallbacks at each use site. -/
structure Settings where
  ignore : Option (List String)
  timeToRemoveLeaf : Option Nat
  maxGraphViews : Option Nat
  layoutDebounceMs : Option Nat
  bannerHeight : Option String
  mobileMode : Option String
  showInEditMode : Option String
  perNoteDisabledPaths : List String
deriving DecidableEq

/-- `this.settings.maxGraphViews || DEFAULT_SETTINGS.maxGraphViews`: the JS
`||` falls back on `0` as well as on an undefined field. -/
def effectiveMax (s : Settings) : Nat :=
  match s.maxGraphViews with
  | some n => if n = 0 then defaultMaxGraphViews else n
  | none => defaultMaxGraphViews

/-- `this.settings.layoutDebounceMs ?? DEFAULT_SETTINGS.layoutDebounceMs`:
the JS `??` falls back only on null/undefined, so `0` is kept. -/
def effectiveDebounceMs (s : Settings) : Nat :=
  s.layoutDebounceMs.getD defaultLayoutDebounceMs

/-- `this.settings.showInEditMode || DEFAULT_SETTINGS.showInEditMode`. -/
def effectiveEditMode (s : Settings) : String :=
  match s.showInEditMode with
  | some v => if v = "" then defaultShowInEditMode else v
  | none => defaultShowInEditMode

/-- `this.settings.mobileMode || DEFAULT_SETTINGS.mobileMode`. -/
def effectiveMobileMode (s : Settings) : String :=
  match s.mobileMode with
  | some v => if v = "" then defaultMobileMode else v
  | none => defaultMobileMode

/-- `isNoteDisabled(path)` from `src/main.js`. -/
def isNoteDisabled (s : Settings) (path : String) : Bool :=
  s.perNoteDisabledPaths.contains path

/-! ### Core settings snapshots (user presets) -/

/-- The snapshot object built by `_getCoreSettingsSnapshot`. Its `ignore`
field is always an array (a copy of the live list, or `[]`). -/
structure CoreSnapshot where
  maxGraphViews : Option Nat
  layoutDebounceMs : Option Nat
  mobileMode : Option String
  showInEditMode : Option String
  timeToRemoveLeaf : Option Nat
  bannerHeight : Option String
  ignore : List String
deriving DecidableEq

/-- `_getCoreSettingsSnapshot` from `src/main.js`. -/
def getCoreSettingsSnapshot (s : Settings) : CoreSnapshot :=
  { maxGraphViews := s.maxGraphViews
    layoutDebounceMs := s.layoutDebounceMs
    mobileMode := s.mobileMode
    showInEditMode := s.showInEditMode
    timeToRemoveLeaf := s.timeToRemoveLeaf
    bannerHeight := s.bannerHeight
    ignore := s.ignore.getD [] }

/-- JS `a ?? b` where `a` is a snapshot field and `b` the current setting. -/
def coalesce {α : Type} (a b : Option α) : Option α :=
  match a with
  | some v => some v
  | none => b

/-- `_applyCoreSettingsSnapshot` from `src/main.js`.  An array is always
truthy in JS (even when empty), so `if (snapshot.ignore)` always takes the
assignment branch. -/
def applyCoreSettingsSnapshot (snap : CoreSnapshot) (s : Settings) : Settings :=
  { s with
    maxGraphViews := coalesce snap.maxGraphViews s.maxGraphViews
    layoutDebounceMs := coalesce snap.layoutDebounceMs s.layoutDebounceMs
    mobileMode := coalesce snap.mobileMode s.mobileMode
    showInEditMode := coalesce snap.showInEditMode s.showInEditMode
    timeToRemoveLeaf := coalesce snap.timeToRemoveLeaf s.timeToRemoveLeaf
    bannerHeight := coalesce snap.bannerHeight s.bannerHeight
    ignore := some snap.ignore }

/-! ### GraphView (`class GraphView` in `src/main.js`) -/

/-- A markdown file as seen by the plugin. -/
structure FileModel where
  path : String
  extension : String
deriving DecidableEq

/-- The active markdown view passed to `placeGraphView` / `placeTo`:
its container element (by id), its open file, its current mode, and whether
the current mode's container and the inline-title anchor (with a parent
element) exist in the DOM. -/
structure ViewModel where
  containerId : Nat
  file : Option FileModel
  mode : String
  hasModeContainer : Bool
  hasNoteHeader : Bool
deriving DecidableEq

/-- Observable host effects of a placement: `bindFile` records
`leaf.setViewState({type: localgraph, state: {file}})` (the expensive
file-scoped reinitialisation) and `placeNode` records the DOM insertion
`parent.insertAfter(this.node, noteHeader)` into a view container. -/
inductive Effect where
  | bindFile (path : String)
  | placeNode (containerId : Nat)
deriving DecidableEq

/-- Whether an effect is a file-scoped host reinitialisation. -/
def Effect.isBind : Effect → Bool
  | .bindFile _ => true
  | .placeNode _ => false

/-- Number of file-scoped reinitialisations in an effect list. -/
def bindCount (effs : List Effect) : Nat :=
  effs.countP Effect.isBind

/-- One pooled `GraphView` wrapper.  `hasNode` is whether `this.node` is
non-null; `attachedTo` is the (container, mode) whose subtree currently holds
the node; `hiddenFlag`/`visibleFlag` model the `hidden` and
`graph-banner-visible` CSS classes. -/
structure GraphView where
  gvId : Nat
  currentFilePath : Option String
  compact : Bool
  mobileSimplified : Bool
  hasNode : Bool
  attachedTo : Option (Nat × String)
  hiddenFlag : Bool
  visibleFlag : Bool
deriving DecidableEq

/-- The state of a freshly constructed `GraphView` (constructor in
`src/main.js`): no bound file, no style flags, node not yet set up. -/
def newGraphView (gid : Nat) : GraphView :=
  { gvId := gid
    currentFilePath := none
    compact := false
    mobileSimplified := false
    hasNode := false
    attachedTo := none
    hiddenFlag := false
    visibleFlag := false }

/-- `isDescendantOf(parent)` tested against a whole view container. -/
def GraphView.isDescendantOfContainer (gv : GraphView) (c : Nat) : Bool :=
  gv.hasNode &&
    (match gv.attachedTo with
     | some pr => pr.1 == c
     | none => false)

/-- `markdownNodes.some((node) => gv.isDescendantOf(node))` in
`_getOrCreateGraphView`. -/
def GraphView.isAttachedSomewhere (gv : GraphView) (mdContainers : List Nat) : Bool :=
  mdContainers.any (fun c => gv.isDescendantOfContainer c)

/-- `setVisibility(show)` from `src/main.js`: a no-op while the node is null,
otherwise toggles the `hidden` class to `!show` and the
`graph-banner-visible` class to `show`. -/
def GraphView.setVisibility (gv : GraphView) (vis : Bool) : GraphView :=
  if gv.hasNode then { gv with hiddenFlag := !vis, visibleFlag := vis }
  else gv

/-- Style options passed to `placeTo`. -/
structure Opts where
  compact : Bool
  mobileSimplified : Bool
deriving DecidableEq

/-- Tail of `placeTo` after the DOM-attachment decision: add the
`graph-banner-visible` class, apply the style flags from `opts`, and notify
the underlying view of the resize. -/
def finishPlace (gv : GraphView) (effs : List Effect) (opts : Option Opts) :
    GraphView × List Effect :=
  let gv1 := { gv with visibleFlag := true }
  let gv2 :=
    match opts with
    | some o => { gv1 with compact := o.compact, mobileSimplified := o.mobileSimplified }
    | none => gv1
  (gv2, effs)

/-- `placeTo(view, opts)` from `src/main.js` (lines 217-261).  The awaited
`setupLeafPromise` is a completed synchronous step here; `this.node` being
null, a missing file, a missing mode container and a missing note header each
reproduce the corresponding early return.  The function returns the updated
handle and the host effects it performed. -/
def GraphView.placeTo (gv : GraphView) (v : ViewModel) (opts : Option Opts) :
    GraphView × List Effect :=
  if gv.hasNode then
    match v.file with
    | none => (gv, [])
    | some f =>
      let filePath := f.path
      let r1 :=
        if gv.currentFilePath = some filePath then (gv, ([] : List Effect))
        else ({ gv with currentFilePath := some filePath }, [Effect.bindFile filePath])
      let gv1 := r1.1
      let effs1 := r1.2
      if v.hasModeContainer then
        if gv1.attachedTo = some (v.containerId, v.mode) then
          finishPlace gv1 effs1 opts
        else if v.hasNoteHeader then
          finishPlace { gv1 with attachedTo := some (v.containerId, v.mode) }
            (effs1 ++ [Effect.placeNode v.containerId]) opts
        else (gv1, effs1)
      else (gv1, effs1)
  else (gv, [])

/-- `forceRefresh(view, opts)` from `src/main.js`: clear the bound document
path, then place. -/
def GraphView.forceRefresh (gv : GraphView) (v : ViewModel) (opts : Option Opts) :
    GraphView × List Effect :=
  GraphView.placeTo { gv with currentFilePath := none } v opts

/-! ### View pool (`this.graphViews` and `_getOrCreateGraphView`) -/

/-- The pool of handles plus the id supply for fresh ones. -/
structure Pool where
  graphViews : List GraphView
  nextId : Nat
deriving DecidableEq

/-- Replace the element at an index, leaving everything else unchanged. -/
def modifyIdx : List GraphView → Nat → (GraphView → GraphView) → List GraphView
  | [], _, _ => []
  | gv :: rest, 0, f => f gv :: rest
  | gv :: rest, Nat.succ n, f => gv :: modifyIdx rest n f

/-- Index of the first handle satisfying a predicate — the
`for (const gv of this.graphViews)` search loops of `_getOrCreateGraphView`. -/
def firstIdxThat : List GraphView → (GraphView → Bool) → Option Nat
  | [], _ => none
  | gv :: rest, p => if p gv then some 0 else (firstIdxThat rest p).map Nat.succ

/-- Update the handle at index `i` of the pool. -/
def Pool.updateGv (pool : Pool) (i : Nat) (f : GraphView → GraphView) : Pool :=
  { pool with graphViews := modifyIdx pool.graphViews i f }

/-- Read the handle at index `i` of the pool. -/
def Pool.getGv (pool : Pool) (i : Nat) : GraphView :=
  pool.graphViews.getD i (newGraphView 0)

/-- `_getOrCreateGraphView(view)` from `src/main.js` (lines 849-874), in
strict priority order: reuse a handle already attached under the requesting
view's container; else reuse a handle not attached under any live markdown
container; else, at or above the capacity `maxGraphViews || 2`, reuse
`graphViews[0]`; else create a fresh handle and append it.  Returns the
updated pool and the index of the chosen handle. -/
def getOrCreateGraphView (s : Settings) (pool : Pool) (mdContainers : List Nat)
    (viewContainer : Nat) : Pool × Nat :=
  match firstIdxThat pool.graphViews (fun gv => gv.isDescendantOfContainer viewContainer) with
  | some i => (pool, i)
  | none =>
    match firstIdxThat pool.graphViews (fun gv => !gv.isAttachedSomewhere mdContainers) with
    | some i => (pool, i)
    | none =>
      if effectiveMax s ≤ pool.graphViews.length then (pool, 0)
      else
        ({ graphViews := pool.graphViews ++ [newGraphView pool.nextId]
           nextId := pool.nextId + 1 },
         pool.graphViews.length)

/-! ### Placement resolution (`placeGraphView` in `src/main.js`) -/

/-- Host environment inputs of a resolution: the containers of the live
markdown leaves and the device class. -/
structure Env where
  markdownContainers : List Nat
  isMobile : Bool
deriving DecidableEq

/-- `placeGraphView(view)` from `src/main.js` (lines 798-847): gate on a
markdown file; per-note mute; ignore rules; edit-mode behaviour; mobile
behaviour; then show and place.  Returns the updated pool and the host
effects performed. -/
def placeGraphView (s : Settings) (env : Env) (pool : Pool) (v : ViewModel) :
    Pool × List Effect :=
  match v.file with
  | none => (pool, [])
  | some f =>
    if f.extension = "md" then
      let path := f.path
      if isNoteDisabled s path then
        let acq := getOrCreateGraphView s pool env.markdownContainers v.containerId
        (acq.1.updateGv acq.2 (fun gv => gv.setVisibility false), [])
      else
        let ignored := matchIgnore path (s.ignore.getD [])
        let acq := getOrCreateGraphView s pool env.markdownContainers v.containerId
        let pool2 := acq.1.updateGv acq.2 (fun gv => gv.setVisibility (!ignored))
        if ignored then (pool2, [])
        else
          let behaviour := effectiveEditMode s
          if v.mode = "source" ∧ behaviour = "hidden" then
            (pool2.updateGv acq.2 (fun gv => gv.setVisibility false), [])
          else
            let compact := v.mode = "source" ∧ behaviour = "compact"
            let mm := effectiveMobileMode s
            if env.isMobile ∧ mm = "disabled" then
              (pool2.updateGv acq.2 (fun gv => gv.setVisibility false), [])
            else
              let simplified := env.isMobile ∧ mm = "simplified"
              let pool3 := pool2.updateGv acq.2 (fun gv => gv.setVisibility true)
              let r := (pool3.getGv acq.2).placeTo v
                (some { compact := decide compact, mobileSimplified := decide simplified })
              (pool3.updateGv acq.2 (fun _ => r.1), r.2)
    else (pool, [])

/-! ### Per-note toggle (`toggleCurrentNote` in `src/main.js`) -/

/-- The list mutation of `toggleCurrentNote`: `indexOf` / `push` / `splice`
add the path when absent and remove its first occurrence when present. -/
def togglePath (list : List String) (path : String) : List String :=
  if list.contains path then list.erase path else list ++ [path]

/-- `toggleCurrentNote(path)` from `src/main.js` (lines 690-707): mutate the
per-note disable list, then re-resolve placement when the active view shows
that very path. -/
def toggleCurrentNote (s : Settings) (env : Env) (pool : Pool) (path : String)
    (activeView : Option ViewModel) : Settings × Pool × List Effect :=
  let s1 := { s with perNoteDisabledPaths := togglePath s.perNoteDisabledPaths path }
  match activeView with
  | some v =>
    match v.file with
    | some f =>
      if f.path = path then
        let r := placeGraphView s1 env pool v
        (s1, r.1, r.2)
      else (s1, pool, [])
    | none => (s1, pool, [])
  | none => (s1, pool, [])

/-! ### Timers: debounce scheduler and delayed leaf removal -/

/-- A timer payload scheduled by the core: either the debounced
layout-change resolution (capturing the active view) or the delayed
`removeChild` of a freshly created graph leaf. -/
inductive TimerKind where
  | layoutDebounce (viewId : Nat)
  | removeLeaf (gvId : Nat)
deriving DecidableEq

/-- Whether a payload is the debounced layout-change resolution. -/
def TimerKind.isLayoutDebounce : TimerKind → Bool
  | .layoutDebounce _ => true
  | .removeLeaf _ => false

/-- A pending `window.setTimeout` registration. -/
structure Timer where
  tid : Nat
  deadline : Nat
  payload : TimerKind
deriving DecidableEq

/-- The host timer queue: pending registrations plus the (ordered) payloads
that have already fired. -/
structure Sched where
  nextTimerId : Nat
  timers : List Timer
  fired : List TimerKind
deriving DecidableEq

/-- A queue with no pending and no fired timers. -/
def emptySched : Sched :=
  { nextTimerId := 0, timers := [], fired := [] }

/-- `window.setTimeout`: register a timer, return its id. -/
def setTimeout (s : Sched) (deadline : Nat) (k : TimerKind) : Sched × Nat :=
  ({ s with
      timers := s.timers ++ [{ tid := s.nextTimerId, deadline := deadline, payload := k }]
      nextTimerId := s.nextTimerId + 1 },
   s.nextTimerId)

/-- `window.clearTimeout`: drop a pending timer by id (a no-op for an id that
already fired). -/
def clearTimeout (s : Sched) (tid : Nat) : Sched :=
  { s with timers := s.timers.filter (fun t => t.tid != tid) }

/-- Let wall-clock time reach `now`: every pending timer whose deadline has
passed fires (its payload's callback runs), the rest stay pending. -/
def advanceTo (s : Sched) (now : Nat) : Sched :=
  { s with
    timers := s.timers.filter (fun t => decide (now < t.deadline))
    fired := s.fired ++ (s.timers.filter (fun t => decide (t.deadline ≤ now))).map Timer.payload }

/-- The debounce-relevant plugin state: the timer queue and `_layoutTimer`.
Note that the timer callback does not reset `_layoutTimer`, so it may hold a
stale id of an already-fired timer. -/
structure DebSt where
  sched : Sched
  layoutTimer : Option Nat
deriving DecidableEq

/-- The `layout-change` handler registered in `onload` (lines 557-570): if an
active markdown view exists, cancel the pending debounce timer (if any) and
schedule a new `placeGraphView` for the captured view after
`layoutDebounceMs ?? 80` ms. -/
def layoutChangeHandler (s : Settings) (st : DebSt) (now : Nat)
    (activeViewId : Option Nat) : DebSt :=
  match activeViewId with
  | none => st
  | some v =>
    let wait := effectiveDebounceMs s
    let sched1 :=
      match st.layoutTimer with
      | some tid => clearTimeout st.sched tid
      | none => st.sched
    let r := setTimeout sched1 (now + wait) (TimerKind.layoutDebounce v)
    { sched := r.1, layoutTimer := some r.2 }

/-- One layout-change trigger at wall-clock time `tv.1` with active view
`tv.2`: time first advances to the trigger instant (due timers fire), then
the handler runs. -/
def layoutChangeStep (s : Settings) (st : DebSt) (tv : Nat × Nat) : DebSt :=
  layoutChangeHandler s { st with sched := advanceTo st.sched tv.1 } tv.1 (some tv.2)

/-- Process a sequence of layout-change triggers in order. -/
def runBurst (s : Settings) (st : DebSt) (triggers : List (Nat × Nat)) : DebSt :=
  triggers.foldl (layoutChangeStep s) st

/-- `burstChain wait prev rest`: every trigger in `rest` happens no earlier
than the previous one and strictly within the quiet window `wait` after it. -/
def burstChain (wait : Nat) : Nat → List (Nat × Nat) → Bool
  | _, [] => true
  | prev, (t, _) :: rest => (decide (prev ≤ t) && decide (t < prev + wait)) && burstChain wait t rest

/-! ### Plugin teardown (`onunload` in `src/main.js`) -/

/-- The process-wide plugin state relevant to teardown. -/
structure PluginSt where
  sched : Sched
  layoutTimer : Option Nat
  graphViews : List GraphView
deriving DecidableEq

/-- The timer side of `_setupLeaf` (lines 108-132): with a positive grace
period the leaf removal is scheduled as an untracked `setTimeout`; with a
zero grace period it happens immediately and no timer is registered. -/
def setupLeafTimer (sched : Sched) (gvId : Nat) (now : Nat) (timeToRemoveLeaf : Nat) : Sched :=
  if 0 < timeToRemoveLeaf then
    (setTimeout sched (now + timeToRemoveLeaf) (TimerKind.removeLeaf gvId)).1
  else sched

/-- `onunload` from `src/main.js` (lines 593-606): clear the pending layout
debounce timer (if any), detach every pooled handle, empty the pool.  The
second component lists the ids of the handles that were synchronously
detached. -/
def onunload (s : PluginSt) : PluginSt × List Nat :=
  let sched1 :=
    match s.layoutTimer with
    | some tid => clearTimeout s.sched tid
    | none => s.sched
  ({ sched := sched1, layoutTimer := none, graphViews := [] },
   s.graphViews.map GraphView.gvId)

/-! ## Theorems -/

/-! ### Ignore matcher lemmas and claim C2 -/

/-- The loop body of `matchIgnore` is exactly the per-line verdict with the
running state as fallback. -/
theorem processLine_eq (path raw : String) (ignored : Bool) :
    processLine path ignored raw = (lineVerdict path raw).getD ignored := by
  unfold processLine lineVerdict
  repeat' split <;> try simp_all

/-- Folding the loop body over the lines computes the last verdict, i.e.
last match wins. -/
theorem foldl_processLine (path : String) (l : List String) (b : Bool) :
    l.foldl (processLine path) b = (l.filterMap (lineVerdict path)).getLastD b := by
  induction l generalizing b with
  | nil => rfl
  | cons x xs ih =>
    rw [List.foldl_cons, processLine_eq]
    cases h : lineVerdict path x with
    | none => simp only [List.filterMap_cons, h, Option.getD_none]; exact ih b
    | some y =>
      simp only [List.filterMap_cons, h, Option.getD_some, List.getLastD_cons]
      exact ih y

/-- C2: ignore evaluation processes the pattern lines in order with
last-match-wins semantics — the result of `matchIgnore` is the last verdict
of the lines (skipping blank, `#`-comment and empty-after-`!` lines, with a
matching `!` line yielding verdict `false`, any other matching line verdict
`true`, `*` patterns matched as anchored wildcards and wildcard-free patterns
by substring containment, all encoded in `lineVerdict`), defaulting to
`false`; in particular `Archive/keep.md` is not ignored and `Archive/x.md` is
ignored under `["Archive/*", "!Archive/keep.md"]`, and the empty pattern list
ignores nothing. -/
theorem C2_ignore_evaluation :
    (∀ (path : String) (patterns : List String),
        matchIgnore path patterns = (patterns.filterMap (lineVerdict path)).getLastD false)
    ∧ matchIgnore "Archive/keep.md" ["Archive/*", "!Archive/keep.md"] = false
    ∧ matchIgnore "Archive/x.md" ["Archive/*", "!Archive/keep.md"] = true
    ∧ (∀ path : String, matchIgnore path [] = false) := by
  refine ⟨fun path patterns => ?_, by decide, by decide, fun path => rfl⟩
  cases patterns with
  | nil => rfl
  | cons x xs =>
    rw [matchIgnore]
    simp only [List.isEmpty_cons, if_false, Bool.false_eq_true]
    exact foldl_processLine path (x :: xs) false

/-! ### GraphView binding lemmas and claims C3, C6 -/

/-- Counting reinitialisations over concatenated effect lists. -/
theorem bindCount_append (a b : List Effect) :
    bindCount (a ++ b) = bindCount a + bindCount b := by
  simp [bindCount, List.countP_append]

/-- Core behaviour of `placeTo` for a set-up handle on a view with a file:
the handle ends up bound to the view's file, keeps its node, and performs
exactly one host reinitialisation — none when it was already bound to that
file. -/
theorem placeTo_spec (gv : GraphView) (v : ViewModel) (opts : Option Opts)
    (f : FileModel) (hnode : gv.hasNode = true) (hfile : v.file = some f) :
    (gv.placeTo v opts).1.currentFilePath = some f.path ∧
      (gv.placeTo v opts).1.hasNode = true ∧
      bindCount (gv.placeTo v opts).2 =
        (if gv.currentFilePath = some f.path then 0 else 1) := by
  rw [GraphView.placeTo]
  simp only [hnode, hfile, if_true]
  by_cases hb : gv.currentFilePath = some f.path <;>
    simp only [hb, if_true, if_false] <;>
    repeat' first
      | rfl
      | (split <;> try simp_all [finishPlace, bindCount, Effect.isBind, List.countP,
          List.countP.go])

/-- C3: binding is idempotent per document path.  A handle already bound to
the requested path performs no host reinitialisation and stays bound; a
handle bound elsewhere (or unbound) performs exactly one reinitialisation
over two successive `placeTo` calls with the same path, after which it is
bound to that path. -/
theorem C3_bind_idempotent (gv : GraphView) (v : ViewModel) (opts opts2 : Option Opts)
    (f : FileModel) (hnode : gv.hasNode = true) (hfile : v.file = some f) :
    (gv.currentFilePath = some f.path →
      bindCount (gv.placeTo v opts).2 = 0 ∧
        (gv.placeTo v opts).1.currentFilePath = some f.path)
    ∧ (gv.currentFilePath ≠ some f.path →
      bindCount ((gv.placeTo v opts).2 ++ ((gv.placeTo v opts).1.placeTo v opts2).2) = 1 ∧
        ((gv.placeTo v opts).1.placeTo v opts2).1.currentFilePath = some f.path) := by
  obtain ⟨h1, h2, h3⟩ := placeTo_spec gv v opts f hnode hfile
  constructor
  · intro hb
    exact ⟨by rw [h3, if_pos hb], h1⟩
  · intro hb
    obtain ⟨h1', h2', h3'⟩ := placeTo_spec (gv.placeTo v opts).1 v opts2 f h2 hfile
    refine ⟨?_, h1'⟩
    rw [bindCount_append, h3, h3', if_neg hb, if_pos h1]

/-- Witness for C3: a fresh set-up handle placed twice onto `A.md` binds
exactly once and ends up bound to `A.md`. -/
theorem C3_bind_idempotent_witness :
    bindCount (((GraphView.mk 0 none false false true none false false).placeTo
          (ViewModel.mk 1 (some (FileModel.mk "A.md" "md")) "preview" true true) none).2 ++
        ((((GraphView.mk 0 none false false true none false false).placeTo
          (ViewModel.mk 1 (some (FileModel.mk "A.md" "md")) "preview" true true) none).1).placeTo
          (ViewModel.mk 1 (some (FileModel.mk "A.md" "md")) "preview" true true) none).2) = 1 ∧
      ((((GraphView.mk 0 none false false true none false false).placeTo
          (ViewModel.mk 1 (some (FileModel.mk "A.md" "md")) "preview" true true) none).1).placeTo
          (ViewModel.mk 1 (some (FileModel.mk "A.md" "md")) "preview" true true) none).1.currentFilePath =
        some "A.md" :=
  (C3_bind_idempotent (GraphView.mk 0 none false false true none false false)
      (ViewModel.mk 1 (some (FileModel.mk "A.md" "md")) "preview" true true) none none
      (FileModel.mk "A.md" "md") rfl rfl).2 (by decide)

/-- C6: forced refresh is a round-trip.  For a set-up handle already bound to
the view's path, `forceRefresh` clears the bound path and its placement
re-establishes the same bound path, performing exactly one host
reinitialisation even though the path value is unchanged. -/
theorem C6_force_refresh_roundtrip (gv : GraphView) (v : ViewModel) (opts : Option Opts)
    (f : FileModel) (hnode : gv.hasNode = true) (hfile : v.file = some f)
    (hbound : gv.currentFilePath = some f.path) :
    (gv.forceRefresh v opts).1.currentFilePath = gv.currentFilePath ∧
      bindCount (gv.forceRefresh v opts).2 = 1 := by
  have h := placeTo_spec { gv with currentFilePath := none } v opts f hnode hfile
  rw [GraphView.forceRefresh]
  refine ⟨by rw [h.1, hbound], ?_⟩
  rw [h.2.2, if_neg (by simp)]

/-- Witness for C6: forced refresh of a handle bound to `A.md` on a view
showing `A.md` keeps the bound path and reinitialises exactly once. -/
theorem C6_force_refresh_roundtrip_witness :
    ((GraphView.mk 0 (some "A.md") false false true (some (1, "preview")) false true).forceRefresh
          (ViewModel.mk 1 (some (FileModel.mk "A.md" "md")) "preview" true true) none).1.currentFilePath =
        (GraphView.mk 0 (some "A.md") false false true (some (1, "preview")) false true).currentFilePath ∧
      bindCount
        ((GraphView.mk 0 (some "A.md") false false true (some (1, "preview")) false true).forceRefresh
          (ViewModel.mk 1 (some (FileModel.mk "A.md" "md")) "preview" true true) none).2 = 1 :=
  C6_force_refresh_roundtrip
    (GraphView.mk 0 (some "A.md") false false true (some (1, "preview")) false true)
    (ViewModel.mk 1 (some (FileModel.mk "A.md" "md")) "preview" true true) none
    (FileModel.mk "A.md" "md") rfl rfl rfl

/-! ### Pool lemmas and claim C1 -/

/-- The effective capacity is always positive. -/
theorem one_le_effectiveMax (s : Settings) : 1 ≤ effectiveMax s := by
  unfold effectiveMax
  cases s.maxGraphViews with
  | none => decide
  | some n =>
    by_cases h : n = 0
    · simp [h, defaultMaxGraphViews]
    · simp [h]
      omega

/-- A found first index is in bounds. -/
theorem firstIdxThat_lt_length {l : List GraphView} {p : GraphView → Bool} {i : Nat}
    (h : firstIdxThat l p = some i) : i < l.length := by
  induction l generalizing i with
  | nil => simp [firstIdxThat] at h
  | cons gv rest ih =>
    rw [firstIdxThat] at h
    split at h
    · cases h
      simp
    · cases hr : firstIdxThat rest p with
      | none => rw [hr] at h; cases h
      | some j =>
        rw [hr] at h
        cases h
        simpa using ih hr

/-- When every element fails the predicate, no first index exists. -/
theorem firstIdxThat_eq_none {l : List GraphView} {p : GraphView → Bool}
    (h : l.all (fun gv => !p gv) = true) : firstIdxThat l p = none := by
  induction l with
  | nil => rfl
  | cons gv rest ih =>
    simp only [List.all_cons, Bool.and_eq_true, Bool.not_eq_true'] at h
    rw [firstIdxThat, if_neg (by simp [h.1]), ih h.2]
    rfl

/-- One acquisition never grows the pool beyond the capacity. -/
theorem getOrCreate_preserves_cap (s : Settings) (pool : Pool) (mdCs : List Nat) (c : Nat)
    (h : pool.graphViews.length ≤ effectiveMax s) :
    (getOrCreateGraphView s pool mdCs c).1.graphViews.length ≤ effectiveMax s := by
  rw [getOrCreateGraphView]
  split
  · exact h
  · split
    · exact h
    · split
      · exact h
      · next hlt => simp at hlt ⊢; omega

/-- The returned index addresses a handle of the returned pool. -/
theorem getOrCreate_idx_lt (s : Settings) (pool : Pool) (mdCs : List Nat) (c : Nat) :
    (getOrCreateGraphView s pool mdCs c).2 <
      (getOrCreateGraphView s pool mdCs c).1.graphViews.length := by
  rw [getOrCreateGraphView]
  split
  · next h => exact firstIdxThat_lt_length h
  · split
    · next h => exact firstIdxThat_lt_length h
    · split
      · next hle => exact Nat.lt_of_lt_of_le (one_le_effectiveMax s) hle
      · simp

/-- C1: the pool never exceeds the configured capacity.  Any sequence of
acquisitions keeps `graphViews.length ≤ maxGraphViews`, and a request that
finds the pool at (or beyond) capacity with no handle attached to the
requesting container and no detached handle returns the least-recently
created handle `graphViews[0]` without constructing a new one. -/
theorem C1_pool_capacity :
    (∀ (s : Settings) (reqs : List (List Nat × Nat)) (pool : Pool),
        pool.graphViews.length ≤ effectiveMax s →
        ((reqs.foldl (fun pl r => (getOrCreateGraphView s pl r.1 r.2).1) pool).graphViews.length
          ≤ effectiveMax s))
    ∧ (∀ (s : Settings) (pool : Pool) (mdCs : List Nat) (c : Nat),
        effectiveMax s ≤ pool.graphViews.length →
        pool.graphViews.all (fun gv => !gv.isDescendantOfContainer c) = true →
        pool.graphViews.all (fun gv => gv.isAttachedSomewhere mdCs) = true →
        getOrCreateGraphView s pool mdCs c = (pool, 0)) := by
  constructor
  · intro s reqs
    induction reqs with
    | nil => intro pool h; exact h
    | cons r rest ih =>
      intro pool h
      exact ih _ (getOrCreate_preserves_cap s pool r.1 r.2 h)
  · intro s pool mdCs c hcap hnoatt hnodet
    rw [getOrCreateGraphView, firstIdxThat_eq_none hnoatt,
      firstIdxThat_eq_none (by simpa using hnodet), if_pos hcap]

/-- Witness for C1: from a two-handle pool at capacity 2 whose handles are
attached under markdown containers 1 and 2, three further acquisitions for
container 3 keep the pool at two handles, and a single acquisition returns
the pool unchanged with index 0. -/
theorem C1_pool_capacity_witness :
    (([([1, 2], 3), ([1, 2], 3), ([1, 2], 3)] : List (List Nat × Nat)).foldl
        (fun pl r => (getOrCreateGraphView
          (Settings.mk none none (some 2) none none none none []) pl r.1 r.2).1)
        (Pool.mk [GraphView.mk 0 none false false true (some (1, "preview")) false false,
          GraphView.mk 1 none false false true (some (2, "preview")) false false] 2)).graphViews.length
      ≤ effectiveMax (Settings.mk none none (some 2) none none none none []) ∧
    getOrCreateGraphView (Settings.mk none none (some 2) none none none none [])
        (Pool.mk [GraphView.mk 0 none false false true (some (1, "preview")) false false,
          GraphView.mk 1 none false false true (some (2, "preview")) false false] 2) [1, 2] 3 =
      (Pool.mk [GraphView.mk 0 none false false true (some (1, "preview")) false false,
          GraphView.mk 1 none false false true (some (2, "preview")) false false] 2, 0) :=
  ⟨C1_pool_capacity.1 (Settings.mk none none (some 2) none none none none [])
      [([1, 2], 3), ([1, 2], 3), ([1, 2], 3)]
      (Pool.mk [GraphView.mk 0 none false false true (some (1, "preview")) false false,
        GraphView.mk 1 none false false true (some (2, "preview")) false false] 2) (by decide),
    C1_pool_capacity.2 (Settings.mk none none (some 2) none none none none [])
      (Pool.mk [GraphView.mk 0 none false false true (some (1, "preview")) false false,
        GraphView.mk 1 none false false true (some (2, "preview")) false false] 2) [1, 2] 3
      (by decide) (by decide) (by decide)⟩

/-! ### Settings snapshot claim C10 -/

/-- C10: saving and re-applying the core-settings snapshot is the identity on
settings whose seven core fields are all defined; in particular the ignore
list is restored element-for-element. -/
theorem C10_snapshot_roundtrip (s : Settings)
    (h1 : s.maxGraphViews.isSome = true) (h2 : s.layoutDebounceMs.isSome = true)
    (h3 : s.mobileMode.isSome = true) (h4 : s.showInEditMode.isSome = true)
    (h5 : s.timeToRemoveLeaf.isSome = true) (h6 : s.bannerHeight.isSome = true)
    (h7 : s.ignore.isSome = true) :
    applyCoreSettingsSnapshot (getCoreSettingsSnapshot s) s = s := by
  obtain ⟨m1, e1⟩ := Option.isSome_iff_exists.mp h1
  obtain ⟨m2, e2⟩ := Option.isSome_iff_exists.mp h2
  obtain ⟨m3, e3⟩ := Option.isSome_iff_exists.mp h3
  obtain ⟨m4, e4⟩ := Option.isSome_iff_exists.mp h4
  obtain ⟨m5, e5⟩ := Option.isSome_iff_exists.mp h5
  obtain ⟨m6, e6⟩ := Option.isSome_iff_exists.mp h6
  obtain ⟨m7, e7⟩ := Option.isSome_iff_exists.mp h7
  cases s
  simp_all [applyCoreSettingsSnapshot, getCoreSettingsSnapshot, coalesce]

/-- Witness for C10 at a fully defined settings object. -/
theorem C10_snapshot_roundtrip_witness :
    applyCoreSettingsSnapshot
        (getCoreSettingsSnapshot
          (Settings.mk (some ["Archive/*", "!Archive/keep.md"]) (some 100) (some 2) (some 80)
            (some "14vh") (some "full") (some "compact") ["B.md"]))
        (Settings.mk (some ["Archive/*", "!Archive/keep.md"]) (some 100) (some 2) (some 80)
          (some "14vh") (some "full") (some "compact") ["B.md"]) =
      Settings.mk (some ["Archive/*", "!Archive/keep.md"]) (some 100) (some 2) (some 80)
        (some "14vh") (some "full") (some "compact") ["B.md"] :=
  C10_snapshot_roundtrip
    (Settings.mk (some ["Archive/*", "!Archive/keep.md"]) (some 100) (some 2) (some 80)
      (some "14vh") (some "full") (some "compact") ["B.md"])
    rfl rfl rfl rfl rfl rfl rfl

/-! ### Resolution lemmas and claims C7, C8 -/

/-- `setVisibility` never changes the binding, the style flags, the node or
the attachment of a handle. -/
theorem setVisibility_preserves (gv : GraphView) (b : Bool) :
    (gv.setVisibility b).currentFilePath = gv.currentFilePath ∧
      (gv.setVisibility b).compact = gv.compact ∧
      (gv.setVisibility b).mobileSimplified = gv.mobileSimplified ∧
      (gv.setVisibility b).hasNode = gv.hasNode ∧
      (gv.setVisibility b).attachedTo = gv.attachedTo := by
  unfold GraphView.setVisibility
  split <;> simp

/-- `setVisibility` on a set-up handle toggles exactly the two CSS class
flags. -/
theorem setVisibility_flags (gv : GraphView) (b : Bool) (h : gv.hasNode = true) :
    (gv.setVisibility b).hiddenFlag = !b ∧ (gv.setVisibility b).visibleFlag = b := by
  unfold GraphView.setVisibility
  rw [if_pos h]
  exact ⟨rfl, rfl⟩

/-- `modifyIdx` preserves the length. -/
theorem modifyIdx_length (l : List GraphView) (i : Nat) (f : GraphView → GraphView) :
    (modifyIdx l i f).length = l.length := by
  induction l generalizing i with
  | nil => rfl
  | cons gv rest ih => cases i <;> simp [modifyIdx, ih]

/-- Reading back the modified index applies the modification to the old
element. -/
theorem modifyIdx_getD (l : List GraphView) (i : Nat) (f : GraphView → GraphView)
    (d : GraphView) (h : i < l.length) :
    (modifyIdx l i f).getD i d = f (l.getD i d) := by
  induction l generalizing i with
  | nil => simp at h
  | cons gv rest ih =>
    cases i with
    | zero => rfl
    | succ n =>
      simp only [modifyIdx, List.getD_cons_succ]
      exact ih n (by simpa using h)

/-- C7: a resolution for a per-note-disabled or ignored markdown document
only sets the acquired handle's visibility to false — no host
reinitialisation and no DOM insertion happen, the handle's bound document
path, compact and simplified flags are unchanged (so a bound handle stays
bound while hidden), and on a set-up handle the `hidden` class is set and
the visible class removed. -/
theorem C7_policy_hides_only (s : Settings) (env : Env) (pool : Pool) (v : ViewModel)
    (f : FileModel) (hfile : v.file = some f) (hext : f.extension = "md")
    (hpol : isNoteDisabled s f.path = true ∨
      (isNoteDisabled s f.path = false ∧ matchIgnore f.path (s.ignore.getD []) = true)) :
    placeGraphView s env pool v =
      ((getOrCreateGraphView s pool env.markdownContainers v.containerId).1.updateGv
          (getOrCreateGraphView s pool env.markdownContainers v.containerId).2
          (fun gv => gv.setVisibility false),
        []) ∧
      (((placeGraphView s env pool v).1.getGv
            (getOrCreateGraphView s pool env.markdownContainers v.containerId).2).currentFilePath =
          (((getOrCreateGraphView s pool env.markdownContainers v.containerId).1).getGv
            (getOrCreateGraphView s pool env.markdownContainers v.containerId).2).currentFilePath ∧
        ((placeGraphView s env pool v).1.getGv
            (getOrCreateGraphView s pool env.markdownContainers v.containerId).2).compact =
          (((getOrCreateGraphView s pool env.markdownContainers v.containerId).1).getGv
            (getOrCreateGraphView s pool env.markdownContainers v.containerId).2).compact ∧
        ((placeGraphView s env pool v).1.getGv
            (getOrCreateGraphView s pool env.markdownContainers v.containerId).2).mobileSimplified =
          (((getOrCreateGraphView s pool env.markdownContainers v.containerId).1).getGv
            (getOrCreateGraphView s pool env.markdownContainers v.containerId).2).mobileSimplified) ∧
      ((((getOrCreateGraphView s pool env.markdownContainers v.containerId).1).getGv
            (getOrCreateGraphView s pool env.markdownContainers v.containerId).2).hasNode = true →
        ((placeGraphView s env pool v).1.getGv
            (getOrCreateGraphView s pool env.markdownContainers v.containerId).2).hiddenFlag = true ∧
          ((placeGraphView s env pool v).1.getGv
            (getOrCreateGraphView s pool env.markdownContainers v.containerId).2).visibleFlag = false) := by
  have hE : placeGraphView s env pool v =
      ((getOrCreateGraphView s pool env.markdownContainers v.containerId).1.updateGv
        (getOrCreateGraphView s pool env.markdownContainers v.containerId).2
        (fun gv => gv.setVisibility false), []) := by
    rcases hpol with hdis | ⟨hdis, hign⟩
    · simp [placeGraphView, hfile, hext, hdis]
    · simp [placeGraphView, hfile, hext, hdis, hign]
  have hlt := getOrCreate_idx_lt s pool env.markdownContainers v.containerId
  have hget : (placeGraphView s env pool v).1.getGv
      (getOrCreateGraphView s pool env.markdownContainers v.containerId).2 =
      ((getOrCreateGraphView s pool env.markdownContainers v.containerId).1.getGv
        (getOrCreateGraphView s pool env.markdownContainers v.containerId).2).setVisibility false := by
    rw [hE]
    exact modifyIdx_getD _ _ _ _ hlt
  refine ⟨hE, ?_, ?_⟩
  · rw [hget]
    obtain ⟨p1, p2, p3, _, _⟩ := setVisibility_preserves
      ((getOrCreateGraphView s pool env.markdownContainers v.containerId).1.getGv
        (getOrCreateGraphView s pool env.markdownContainers v.containerId).2) false
    exact ⟨p1, p2, p3⟩
  · intro hnode
    rw [hget]
    obtain ⟨q1, q2⟩ := setVisibility_flags
      ((getOrCreateGraphView s pool env.markdownContainers v.containerId).1.getGv
        (getOrCreateGraphView s pool env.markdownContainers v.containerId).2) false hnode
    exact ⟨by rw [q1]; rfl, q2⟩

/-- Witness for C7: resolving a per-note-disabled note on a pool whose only
handle is set up, attached to the view container and bound to `A.md` leaves
it bound and merely hidden, with no effects. -/
theorem C7_policy_hides_only_witness :
    placeGraphView (Settings.mk none none none none none none none ["A.md"]) (Env.mk [1] false)
        (Pool.mk [GraphView.mk 0 (some "A.md") false false true (some (1, "preview")) false true] 1)
        (ViewModel.mk 1 (some (FileModel.mk "A.md" "md")) "preview" true true) =
      ((getOrCreateGraphView (Settings.mk none none none none none none none ["A.md"])
          (Pool.mk [GraphView.mk 0 (some "A.md") false false true (some (1, "preview")) false true] 1)
          [1] 1).1.updateGv
        (getOrCreateGraphView (Settings.mk none none none none none none none ["A.md"])
          (Pool.mk [GraphView.mk 0 (some "A.md") false false true (some (1, "preview")) false true] 1)
          [1] 1).2
        (fun gv => gv.setVisibility false), []) ∧
      (((placeGraphView (Settings.mk none none none none none none none ["A.md"]) (Env.mk [1] false)
            (Pool.mk [GraphView.mk 0 (some "A.md") false false true (some (1, "preview")) false true] 1)
            (ViewModel.mk 1 (some (FileModel.mk "A.md" "md")) "preview" true true)).1.getGv
          (getOrCreateGraphView (Settings.mk none none none none none none none ["A.md"])
            (Pool.mk [GraphView.mk 0 (some "A.md") false false true (some (1, "preview")) false true] 1)
            [1] 1).2).currentFilePath =
        ((getOrCreateGraphView (Settings.mk none none none none none none none ["A.md"])
            (Pool.mk [GraphView.mk 0 (some "A.md") false false true (some (1, "preview")) false true] 1)
            [1] 1).1.getGv
          (getOrCreateGraphView (Settings.mk none none none none none none none ["A.md"])
            (Pool.mk [GraphView.mk 0 (some "A.md") false false true (some (1, "preview")) false true] 1)
            [1] 1).2).currentFilePath ∧
      ((placeGraphView (Settings.mk none none none none none none none ["A.md"]) (Env.mk [1] false)
            (Pool.mk [GraphView.mk 0 (some "A.md") false false true (some (1, "preview")) false true] 1)
            (ViewModel.mk 1 (some (FileModel.mk "A.md" "md")) "preview" true true)).1.getGv
          (getOrCreateGraphView (Settings.mk none none none none none none none ["A.md"])
            (Pool.mk [GraphView.mk 0 (some "A.md") false false true (some (1, "preview")) false true] 1)
            [1] 1).2).compact =
        ((getOrCreateGraphView (Settings.mk none none none none none none none ["A.md"])
            (Pool.mk [GraphView.mk 0 (some "A.md") false false true (some (1, "preview")) false true] 1)
            [1] 1).1.getGv
          (getOrCreateGraphView (Settings.mk none none none none none none none ["A.md"])
            (Pool.mk [GraphView.mk 0 (some "A.md") false false true (some (1, "preview")) false true] 1)
            [1] 1).2).compact ∧
      ((placeGraphView (Settings.mk none none none none none none none ["A.md"]) (Env.mk [1] false)
            (Pool.mk [GraphView.mk 0 (some "A.md") false false true (some (1, "preview")) false true] 1)
            (ViewModel.mk 1 (some (FileModel.mk "A.md" "md")) "preview" true true)).1.getGv
          (getOrCreateGraphView (Settings.mk none none none none none none none ["A.md"])
            (Pool.mk [GraphView.mk 0 (some "A.md") false false true (some (1, "preview")) false true] 1)
            [1] 1).2).mobileSimplified =
        ((getOrCreateGraphView (Settings.mk none none none none none none none ["A.md"])
            (Pool.mk [GraphView.mk 0 (some "A.md") false false true (some (1, "preview")) false true] 1)
            [1] 1).1.getGv
          (getOrCreateGraphView (Settings.mk none none none none none none none ["A.md"])
            (Pool.mk [GraphView.mk 0 (some "A.md") false false true (some (1, "preview")) false true] 1)
            [1] 1).2).mobileSimplified) ∧
      (((getOrCreateGraphView (Settings.mk none none none none none none none ["A.md"])
            (Pool.mk [GraphView.mk 0 (some "A.md") false false true (some (1, "preview")) false true] 1)
            [1] 1).1.getGv
          (getOrCreateGraphView (Settings.mk none none none none none none none ["A.md"])
            (Pool.mk [GraphView.mk 0 (some "A.md") false false true (some (1, "preview")) false true] 1)
            [1] 1).2).hasNode = true →
        ((placeGraphView (Settings.mk none none none none none none none ["A.md"]) (Env.mk [1] false)
            (Pool.mk [GraphView.mk 0 (some "A.md") false false true (some (1, "preview")) false true] 1)
            (ViewModel.mk 1 (some (FileModel.mk "A.md" "md")) "preview" true true)).1.getGv
          (getOrCreateGraphView (Settings.mk none none none none none none none ["A.md"])
            (Pool.mk [GraphView.mk 0 (some "A.md") false false true (some (1, "preview")) false true] 1)
            [1] 1).2).hiddenFlag = true ∧
        ((placeGraphView (Settings.mk none none none none none none none ["A.md"]) (Env.mk [1] false)
            (Pool.mk [GraphView.mk 0 (some "A.md") false false true (some (1, "preview")) false true] 1)
            (ViewModel.mk 1 (some (FileModel.mk "A.md" "md")) "preview" true true)).1.getGv
          (getOrCreateGraphView (Settings.mk none none none none none none none ["A.md"])
            (Pool.mk [GraphView.mk 0 (some "A.md") false false true (some (1, "preview")) false true] 1)
            [1] 1).2).visibleFlag = false) :=
  C7_policy_hides_only (Settings.mk none none none none none none none ["A.md"]) (Env.mk [1] false)
    (Pool.mk [GraphView.mk 0 (some "A.md") false false true (some (1, "preview")) false true] 1)
    (ViewModel.mk 1 (some (FileModel.mk "A.md" "md")) "preview" true true)
    (FileModel.mk "A.md" "md") rfl rfl (Or.inl (by decide))

/-- C8: for a markdown document that is neither per-note disabled nor
ignored, when the view is in the edit (`source`) mode and the edit-mode
behaviour is `hidden`, resolution briefly shows and then hides the acquired
handle and returns with no host reinitialisation and no DOM insertion; on a
set-up handle the final visibility is false. -/
theorem C8_edit_mode_hidden (s : Settings) (env : Env) (pool : Pool) (v : ViewModel)
    (f : FileModel) (hfile : v.file = some f) (hext : f.extension = "md")
    (hdis : isNoteDisabled s f.path = false)
    (hign : matchIgnore f.path (s.ignore.getD []) = false)
    (hmode : v.mode = "source") (hbeh : effectiveEditMode s = "hidden") :
    placeGraphView s env pool v =
      (((getOrCreateGraphView s pool env.markdownContainers v.containerId).1.updateGv
          (getOrCreateGraphView s pool env.markdownContainers v.containerId).2
          (fun gv => gv.setVisibility true)).updateGv
        (getOrCreateGraphView s pool env.markdownContainers v.containerId).2
        (fun gv => gv.setVisibility false), []) ∧
      ((((getOrCreateGraphView s pool env.markdownContainers v.containerId).1).getGv
            (getOrCreateGraphView s pool env.markdownContainers v.containerId).2).hasNode = true →
        ((placeGraphView s env pool v).1.getGv
            (getOrCreateGraphView s pool env.markdownContainers v.containerId).2).hiddenFlag = true ∧
          ((placeGraphView s env pool v).1.getGv
            (getOrCreateGraphView s pool env.markdownContainers v.containerId).2).visibleFlag = false) := by
  have hE : placeGraphView s env pool v =
      (((getOrCreateGraphView s pool env.markdownContainers v.containerId).1.updateGv
          (getOrCreateGraphView s pool env.markdownContainers v.containerId).2
          (fun gv => gv.setVisibility true)).updateGv
        (getOrCreateGraphView s pool env.markdownContainers v.containerId).2
        (fun gv => gv.setVisibility false), []) := by
    simp [placeGraphView, hfile, hext, hdis, hign, hmode, hbeh]
  have hlt := getOrCreate_idx_lt s pool env.markdownContainers v.containerId
  have hlt2 : (getOrCreateGraphView s pool env.markdownContainers v.containerId).2 <
      ((getOrCreateGraphView s pool env.markdownContainers v.containerId).1.updateGv
        (getOrCreateGraphView s pool env.markdownContainers v.containerId).2
        (fun gv => gv.setVisibility true)).graphViews.length := by
    unfold Pool.updateGv
    rw [modifyIdx_length]
    exact hlt
  have hget : (placeGraphView s env pool v).1.getGv
      (getOrCreateGraphView s pool env.markdownContainers v.containerId).2 =
      ((((getOrCreateGraphView s pool env.markdownContainers v.containerId).1).getGv
        (getOrCreateGraphView s pool env.markdownContainers v.containerId).2).setVisibility
          true).setVisibility false := by
    rw [hE]
    simp only [Pool.getGv, Pool.updateGv]
    rw [modifyIdx_getD _ _ _ _ (by rw [modifyIdx_length]; exact hlt)]
    rw [modifyIdx_getD _ _ _ _ hlt]
  refine ⟨hE, fun hnode => ?_⟩
  rw [hget]
  have hnode1 : (((getOrCreateGraphView s pool env.markdownContainers v.containerId).1.getGv
      (getOrCreateGraphView s pool env.markdownContainers v.containerId).2).setVisibility
        true).hasNode = true := by
    rw [(setVisibility_preserves _ true).2.2.2.1]
    exact hnode
  obtain ⟨q1, q2⟩ := setVisibility_flags _ false hnode1
  exact ⟨by rw [q1]; rfl, q2⟩

/-- Witness for C8: edit mode with `showInEditMode = hidden` hides the
attached set-up handle and performs no effects. -/
theorem C8_edit_mode_hidden_witness :
    placeGraphView (Settings.mk none none none none none none (some "hidden") [])
        (Env.mk [1] false)
        (Pool.mk [GraphView.mk 0 (some "A.md") false false true (some (1, "source")) false true] 1)
        (ViewModel.mk 1 (some (FileModel.mk "A.md" "md")) "source" true true) =
      (((getOrCreateGraphView (Settings.mk none none none none none none (some "hidden") [])
          (Pool.mk [GraphView.mk 0 (some "A.md") false false true (some (1, "source")) false true] 1)
          [1] 1).1.updateGv
        (getOrCreateGraphView (Settings.mk none none none none none none (some "hidden") [])
          (Pool.mk [GraphView.mk 0 (some "A.md") false false true (some (1, "source")) false true] 1)
          [1] 1).2
        (fun gv => gv.setVisibility true)).updateGv
        (getOrCreateGraphView (Settings.mk none none none none none none (some "hidden") [])
          (Pool.mk [GraphView.mk 0 (some "A.md") false false true (some (1, "source")) false true] 1)
          [1] 1).2
        (fun gv => gv.setVisibility false), []) ∧
      (((getOrCreateGraphView (Settings.mk none none none none none none (some "hidden") [])
            (Pool.mk [GraphView.mk 0 (some "A.md") false false true (some (1, "source")) false true] 1)
            [1] 1).1.getGv
          (getOrCreateGraphView (Settings.mk none none none none none none (some "hidden") [])
            (Pool.mk [GraphView.mk 0 (some "A.md") false false true (some (1, "source")) false true] 1)
            [1] 1).2).hasNode = true →
        ((placeGraphView (Settings.mk none none none none none none (some "hidden") [])
            (Env.mk [1] false)
            (Pool.mk [GraphView.mk 0 (some "A.md") false false true (some (1, "source")) false true] 1)
            (ViewModel.mk 1 (some (FileModel.mk "A.md" "md")) "source" true true)).1.getGv
          (getOrCreateGraphView (Settings.mk none none none none none none (some "hidden") [])
            (Pool.mk [GraphView.mk 0 (some "A.md") false false true (some (1, "source")) false true] 1)
            [1] 1).2).hiddenFlag = true ∧
        ((placeGraphView (Settings.mk none none none none none none (some "hidden") [])
            (Env.mk [1] false)
            (Pool.mk [GraphView.mk 0 (some "A.md") false false true (some (1, "source")) false true] 1)
            (ViewModel.mk 1 (some (FileModel.mk "A.md" "md")) "source" true true)).1.getGv
          (getOrCreateGraphView (Settings.mk none none none none none none (some "hidden") [])
            (Pool.mk [GraphView.mk 0 (some "A.md") false false true (some (1, "source")) false true] 1)
            [1] 1).2).visibleFlag = false) :=
  C8_edit_mode_hidden (Settings.mk none none none none none none (some "hidden") [])
    (Env.mk [1] false)
    (Pool.mk [GraphView.mk 0 (some "A.md") false false true (some (1, "source")) false true] 1)
    (ViewModel.mk 1 (some (FileModel.mk "A.md" "md")) "source" true true)
    (FileModel.mk "A.md" "md") rfl rfl (by decide) (by decide) rfl (by decide)

/-! ### Per-note toggle claim C9 -/

/-- Counterexample to C9 as stated: toggling the per-note command twice for
`p.md` on the disable list `["x.md", "p.md", "y.md"]` (with `p.md` as the
active document) does not restore the original list — the path is re-added at
the end, yielding `["x.md", "y.md", "p.md"]`. -/
theorem C9_toggle_counterexample :
    ((toggleCurrentNote
        (toggleCurrentNote
          (Settings.mk none none none none none none none ["x.md", "p.md", "y.md"])
          (Env.mk [1] false) (Pool.mk [] 0) "p.md"
          (some (ViewModel.mk 1 (some (FileModel.mk "p.md" "md")) "preview" true true))).1
        (Env.mk [1] false)
        (toggleCurrentNote
          (Settings.mk none none none none none none none ["x.md", "p.md", "y.md"])
          (Env.mk [1] false) (Pool.mk [] 0) "p.md"
          (some (ViewModel.mk 1 (some (FileModel.mk "p.md" "md")) "preview" true true))).2.1
        "p.md"
        (some (ViewModel.mk 1 (some (FileModel.mk "p.md" "md")) "preview" true true))).1.perNoteDisabledPaths =
      ["x.md", "y.md", "p.md"]) ∧
    ¬ ((["x.md", "y.md", "p.md"] : List String) = ["x.md", "p.md", "y.md"]) := by
  constructor
  · decide
  · decide

/-- C9 (amended): the toggle command flips the path's membership in the
per-note disable list assuming the path occurs at most once (which holds for
every list the command itself produces): adding it at the end when absent and
removing its single occurrence when present.  Toggling twice restores the
original list exactly when the path was absent, and restores it up to
permutation (same multiset of paths) when the list is duplicate-free; after
the toggle, placement is immediately re-resolved for the active document
showing that path — in particular, toggling the single currently disabled
note `p.md` (held by a set-up detached handle bound to it) removes it from
the disable list, makes the handle visible again and performs the DOM
placement. -/
theorem C9_toggle_flips_membership :
    (∀ (l : List String) (path : String), path ∉ l →
      togglePath l path = l ++ [path] ∧ path ∈ togglePath l path ∧
        togglePath (togglePath l path) path = l)
    ∧ (∀ (l : List String) (path : String), l.count path = 1 →
        togglePath l path = l.erase path ∧ path ∉ togglePath l path)
    ∧ (∀ (l : List String) (path : String), l.Nodup →
        List.Perm (togglePath (togglePath l path) path) l)
    ∧ ((toggleCurrentNote (Settings.mk none none none none none none none ["p.md"])
          (Env.mk [1] false)
          (Pool.mk [GraphView.mk 0 (some "p.md") false false true none true false] 1)
          "p.md"
          (some (ViewModel.mk 1 (some (FileModel.mk "p.md" "md")) "preview" true true))).1.perNoteDisabledPaths = [] ∧
        (toggleCurrentNote (Settings.mk none none none none none none none ["p.md"])
          (Env.mk [1] false)
          (Pool.mk [GraphView.mk 0 (some "p.md") false false true none true false] 1)
          "p.md"
          (some (ViewModel.mk 1 (some (FileModel.mk "p.md" "md")) "preview" true true))).2.2 =
          [Effect.placeNode 1] ∧
        ((toggleCurrentNote (Settings.mk none none none none none none none ["p.md"])
          (Env.mk [1] false)
          (Pool.mk [GraphView.mk 0 (some "p.md") false false true none true false] 1)
          "p.md"
          (some (ViewModel.mk 1 (some (FileModel.mk "p.md" "md")) "preview" true true))).2.1.getGv 0).visibleFlag = true ∧
        ((toggleCurrentNote (Settings.mk none none none none none none none ["p.md"])
          (Env.mk [1] false)
          (Pool.mk [GraphView.mk 0 (some "p.md") false false true none true false] 1)
          "p.md"
          (some (ViewModel.mk 1 (some (FileModel.mk "p.md" "md")) "preview" true true))).2.1.getGv 0).hiddenFlag = false) := by
  have habsent : ∀ (l : List String) (path : String), path ∉ l →
      togglePath l path = l ++ [path] ∧ path ∈ togglePath l path ∧
        togglePath (togglePath l path) path = l := by
    intro l path h
    have hc : l.contains path = false := by simpa using h
    have h1 : togglePath l path = l ++ [path] := by
      rw [togglePath, if_neg (by simpa using h)]
    refine ⟨h1, ?_, ?_⟩
    · rw [h1]
      simp
    · rw [h1, togglePath, if_pos (by simp), List.erase_append_right _ h]
      simp
  refine ⟨habsent, ?_, ?_, by decide, by decide, by decide, by decide⟩
  · intro l path h
    have hm : path ∈ l := List.count_pos_iff.mp (by omega)
    have h1 : togglePath l path = l.erase path := by
      rw [togglePath, if_pos (by simpa using hm)]
    refine ⟨h1, ?_⟩
    rw [h1]
    have hce := List.count_erase_self path l
    exact List.count_eq_zero.mp (by omega)
  · intro l path hnd
    by_cases hm : path ∈ l
    · have hcount : l.count path = 1 := by
        have hle := List.nodup_iff_count_le_one.mp hnd path
        have hpos : 0 < l.count path := List.count_pos_iff.mpr hm
        omega
      have h1 : togglePath l path = l.erase path := by
        rw [togglePath, if_pos (by simpa using hm)]
      have hnm : path ∉ l.erase path := by
        have hce := List.count_erase_self path l
        exact List.count_eq_zero.mp (by omega)
      have h2 : togglePath (l.erase path) path = l.erase path ++ [path] :=
        (habsent _ _ hnm).1
      rw [h1, h2]
      exact (List.perm_append_singleton path (l.erase path)).trans
        (List.perm_cons_erase hm).symm
    · rw [(habsent l path hm).2.2]

/-- Witness for C9 (amended) at concrete lists: membership flips both ways,
double toggling is the identity for an absent path and a permutation for a
present one. -/
theorem C9_toggle_flips_membership_witness :
    (togglePath ["a.md"] "p.md" = ["a.md"] ++ ["p.md"] ∧
      "p.md" ∈ togglePath ["a.md"] "p.md" ∧
      togglePath (togglePath ["a.md"] "p.md") "p.md" = ["a.md"]) ∧
    (togglePath ["x.md", "p.md", "y.md"] "p.md" = (["x.md", "p.md", "y.md"] : List String).erase "p.md" ∧
      "p.md" ∉ togglePath ["x.md", "p.md", "y.md"] "p.md") ∧
    List.Perm (togglePath (togglePath ["x.md", "p.md", "y.md"] "p.md") "p.md")
      ["x.md", "p.md", "y.md"] :=
  ⟨C9_toggle_flips_membership.1 ["a.md"] "p.md" (by decide),
    C9_toggle_flips_membership.2.1 ["x.md", "p.md", "y.md"] "p.md" (by decide),
    C9_toggle_flips_membership.2.2.1 ["x.md", "p.md", "y.md"] "p.md" (by decide)⟩

/-! ### Debounce lemmas and claim C4 -/

/-- Invariant of a debounce burst: starting from a state whose only pending
timer is the debounce timer of the previous trigger, processing further
triggers that each arrive within the quiet window keeps exactly one pending
debounce timer — for the latest trigger — and fires nothing. -/
theorem runBurst_invariant (s : Settings) (rest : List (Nat × Nat)) :
    ∀ (prev vprev : Nat) (st : DebSt) (tid : Nat),
      st.layoutTimer = some tid →
      st.sched.timers =
        [Timer.mk tid (prev + effectiveDebounceMs s) (TimerKind.layoutDebounce vprev)] →
      st.sched.fired = [] →
      burstChain (effectiveDebounceMs s) prev rest = true →
      ∃ tid2,
        (runBurst s st rest).layoutTimer = some tid2 ∧
        (runBurst s st rest).sched.timers =
          [Timer.mk tid2 ((rest.getLastD (prev, vprev)).1 + effectiveDebounceMs s)
            (TimerKind.layoutDebounce (rest.getLastD (prev, vprev)).2)] ∧
        (runBurst s st rest).sched.fired = [] := by
  induction rest with
  | nil =>
    intro prev vprev st tid h1 h2 h3 _
    exact ⟨tid, h1, h2, h3⟩
  | cons tv rest ih =>
    intro prev vprev st tid h1 h2 h3 hchain
    obtain ⟨t, v⟩ := tv
    rw [burstChain] at hchain
    simp only [Bool.and_eq_true, decide_eq_true_eq] at hchain
    obtain ⟨⟨hle, hlt⟩, hch⟩ := hchain
    have hstep : layoutChangeStep s st (t, v) =
        DebSt.mk
          (Sched.mk (st.sched.nextTimerId + 1)
            [Timer.mk st.sched.nextTimerId (t + effectiveDebounceMs s)
              (TimerKind.layoutDebounce v)] [])
          (some st.sched.nextTimerId) := by
      simp only [layoutChangeStep, layoutChangeHandler, advanceTo, setTimeout, clearTimeout,
        h1, h2, h3]
      simp [List.filter, hlt, Nat.not_le.mpr hlt, Timer.mk.injEq, bne_self_eq_false]
    have hrun : runBurst s st ((t, v) :: rest) =
        runBurst s (layoutChangeStep s st (t, v)) rest := rfl
    rw [hrun, hstep]
    have := ih t v
      (DebSt.mk
        (Sched.mk (st.sched.nextTimerId + 1)
          [Timer.mk st.sched.nextTimerId (t + effectiveDebounceMs s)
            (TimerKind.layoutDebounce v)] [])
        (some st.sched.nextTimerId))
      st.sched.nextTimerId rfl rfl rfl hch
    rw [List.getLastD_cons]
    exact this

/-- C4: a burst of layout-change triggers, each arriving within the quiet
window after the previous one, leaves exactly one pending debounce timer
(each trigger having cancelled and replaced the previous one), fires nothing
during the burst, and once the quiet window elapses after the last trigger
exactly one placement resolution is executed, for the view captured at the
last trigger. -/
theorem C4_debounce_burst (s : Settings) (t0 v0 : Nat) (rest : List (Nat × Nat)) (st0 : DebSt)
    (hT : st0.sched.timers = []) (hF : st0.sched.fired = [])
    (hchain : burstChain (effectiveDebounceMs s) t0 rest = true) :
    ∃ tid,
      (runBurst s st0 ((t0, v0) :: rest)).layoutTimer = some tid ∧
      (runBurst s st0 ((t0, v0) :: rest)).sched.timers =
        [Timer.mk tid ((rest.getLastD (t0, v0)).1 + effectiveDebounceMs s)
          (TimerKind.layoutDebounce (rest.getLastD (t0, v0)).2)] ∧
      (runBurst s st0 ((t0, v0) :: rest)).sched.fired = [] ∧
      (advanceTo (runBurst s st0 ((t0, v0) :: rest)).sched
          ((rest.getLastD (t0, v0)).1 + effectiveDebounceMs s)).fired =
        [TimerKind.layoutDebounce (rest.getLastD (t0, v0)).2] ∧
      (advanceTo (runBurst s st0 ((t0, v0) :: rest)).sched
          ((rest.getLastD (t0, v0)).1 + effectiveDebounceMs s)).timers = [] := by
  have hstep : layoutChangeStep s st0 (t0, v0) =
      DebSt.mk
        (Sched.mk (st0.sched.nextTimerId + 1)
          [Timer.mk st0.sched.nextTimerId (t0 + effectiveDebounceMs s)
            (TimerKind.layoutDebounce v0)] [])
        (some st0.sched.nextTimerId) := by
    cases hLT : st0.layoutTimer with
    | none =>
      simp [layoutChangeStep, layoutChangeHandler, advanceTo, setTimeout, clearTimeout,
        hLT, hT, hF]
    | some tid0 =>
      simp [layoutChangeStep, layoutChangeHandler, advanceTo, setTimeout, clearTimeout,
        hLT, hT, hF]
  have hrun : runBurst s st0 ((t0, v0) :: rest) =
      runBurst s (layoutChangeStep s st0 (t0, v0)) rest := rfl
  obtain ⟨tid2, g1, g2, g3⟩ := runBurst_invariant s rest t0 v0
    (DebSt.mk
      (Sched.mk (st0.sched.nextTimerId + 1)
        [Timer.mk st0.sched.nextTimerId (t0 + effectiveDebounceMs s)
          (TimerKind.layoutDebounce v0)] [])
      (some st0.sched.nextTimerId))
    st0.sched.nextTimerId rfl rfl rfl hchain
  rw [hrun, hstep]
  refine ⟨tid2, g1, g2, g3, ?_, ?_⟩ <;>
    simp [advanceTo, g2, g3, List.filter]

/-- Witness for C4: three triggers at times 0, 50, 100 with an 80 ms quiet
window coalesce into a single pending timer that fires once at time 180 with
the view captured at the last trigger. -/
theorem C4_debounce_burst_witness :
    ∃ tid,
      (runBurst (Settings.mk none none none (some 80) none none none [])
          (DebSt.mk emptySched none) [(0, 10), (50, 20), (100, 30)]).layoutTimer = some tid ∧
      (runBurst (Settings.mk none none none (some 80) none none none [])
          (DebSt.mk emptySched none) [(0, 10), (50, 20), (100, 30)]).sched.timers =
        [Timer.mk tid ((([(50, 20), (100, 30)] : List (Nat × Nat)).getLastD (0, 10)).1 +
            effectiveDebounceMs (Settings.mk none none none (some 80) none none none []))
          (TimerKind.layoutDebounce (([(50, 20), (100, 30)] : List (Nat × Nat)).getLastD (0, 10)).2)] ∧
      (runBurst (Settings.mk none none none (some 80) none none none [])
          (DebSt.mk emptySched none) [(0, 10), (50, 20), (100, 30)]).sched.fired = [] ∧
      (advanceTo (runBurst (Settings.mk none none none (some 80) none none none [])
            (DebSt.mk emptySched none) [(0, 10), (50, 20), (100, 30)]).sched
          ((([(50, 20), (100, 30)] : List (Nat × Nat)).getLastD (0, 10)).1 +
            effectiveDebounceMs (Settings.mk none none none (some 80) none none none []))).fired =
        [TimerKind.layoutDebounce (([(50, 20), (100, 30)] : List (Nat × Nat)).getLastD (0, 10)).2] ∧
      (advanceTo (runBurst (Settings.mk none none none (some 80) none none none [])
            (DebSt.mk emptySched none) [(0, 10), (50, 20), (100, 30)]).sched
          ((([(50, 20), (100, 30)] : List (Nat × Nat)).getLastD (0, 10)).1 +
            effectiveDebounceMs (Settings.mk none none none (some 80) none none none []))).timers = [] :=
  C4_debounce_burst (Settings.mk none none none (some 80) none none none []) 0 10
    [(50, 20), (100, 30)] (DebSt.mk emptySched none) rfl rfl (by decide)

/-! ### Teardown claim C5 -/

/-- Counterexample to C5 as stated: a delayed leaf-removal timer scheduled by
`_setupLeaf` with a 100 ms grace period survives `onunload` (nothing tracks
or clears it) and still fires when its deadline passes after teardown. -/
theorem C5_teardown_counterexample :
    (onunload (PluginSt.mk (setupLeafTimer emptySched 0 0 100) none
        [GraphView.mk 0 none false false true none false false])).1.sched.timers =
      [Timer.mk 0 100 (TimerKind.removeLeaf 0)] ∧
    (advanceTo
        (onunload (PluginSt.mk (setupLeafTimer emptySched 0 0 100) none
          [GraphView.mk 0 none false false true none false false])).1.sched 100).fired =
      [TimerKind.removeLeaf 0] := by
  constructor
  · decide
  · decide

/-- C5 (amended): teardown cancels the pending layout-debounce timer, then
synchronously detaches every pooled handle and empties the pool; assuming the
only debounce timers in the queue are the tracked `_layoutTimer` one (true in
every reachable state), no debounce timer remains pending after teardown.
Delayed leaf-removal timers, however, are untracked and are not cancelled
(see the counterexample). -/
theorem C5_teardown_cancels_debounce (s : PluginSt)
    (h : ∀ t ∈ s.sched.timers, t.payload.isLayoutDebounce = true → s.layoutTimer = some t.tid) :
    (onunload s).1.graphViews = [] ∧
      (onunload s).1.layoutTimer = none ∧
      (onunload s).2 = s.graphViews.map GraphView.gvId ∧
      ∀ t ∈ (onunload s).1.sched.timers, t.payload.isLayoutDebounce = false := by
  cases hLT : s.layoutTimer with
  | none =>
    refine ⟨by simp [onunload, hLT], by simp [onunload, hLT], by simp [onunload, hLT], ?_⟩
    intro t ht
    have ht' : t ∈ s.sched.timers := by
      simpa [onunload, hLT] using ht
    cases hb : t.payload.isLayoutDebounce with
    | false => rfl
    | true => exact absurd (h t ht' hb) (by rw [hLT]; exact fun hx => Option.noConfusion hx)
  | some tid =>
    refine ⟨by simp [onunload, hLT], by simp [onunload, hLT], by simp [onunload, hLT], ?_⟩
    intro t ht
    have ht' : t ∈ s.sched.timers ∧ (t.tid != tid) = true := by
      simpa [onunload, hLT, clearTimeout, List.mem_filter] using ht
    cases hb : t.payload.isLayoutDebounce with
    | false => rfl
    | true =>
      have := h t ht'.1 hb
      rw [hLT] at this
      have : t.tid = tid := by injection this.symm
      simp [this] at ht'

/-- Witness for C5 (amended): tearing down a state with a tracked debounce
timer and an untracked leaf-removal timer empties the pool, reports the
detached handle, and leaves no debounce timer pending. -/
theorem C5_teardown_cancels_debounce_witness :
    (onunload (PluginSt.mk
        (Sched.mk 2 [Timer.mk 0 80 (TimerKind.layoutDebounce 7),
          Timer.mk 1 100 (TimerKind.removeLeaf 0)] [])
        (some 0)
        [GraphView.mk 0 (some "A.md") false false true none false true])).1.graphViews = [] ∧
      (onunload (PluginSt.mk
        (Sched.mk 2 [Timer.mk 0 80 (TimerKind.layoutDebounce 7),
          Timer.mk 1 100 (TimerKind.removeLeaf 0)] [])
        (some 0)
        [GraphView.mk 0 (some "A.md") false false true none false true])).1.layoutTimer = none ∧
      (onunload (PluginSt.mk
        (Sched.mk 2 [Timer.mk 0 80 (TimerKind.layoutDebounce 7),
          Timer.mk 1 100 (TimerKind.removeLeaf 0)] [])
        (some 0)
        [GraphView.mk 0 (some "A.md") false false true none false true])).2 =
        (PluginSt.mk
          (Sched.mk 2 [Timer.mk 0 80 (TimerKind.layoutDebounce 7),
            Timer.mk 1 100 (TimerKind.removeLeaf 0)] [])
          (some 0)
          [GraphView.mk 0 (some "A.md") false false true none false true]).graphViews.map
          GraphView.gvId ∧
      ∀ t ∈ (onunload (PluginSt.mk
          (Sched.mk 2 [Timer.mk 0 80 (TimerKind.layoutDebounce 7),
            Timer.mk 1 100 (TimerKind.removeLeaf 0)] [])
          (some 0)
          [GraphView.mk 0 (some "A.md") false false true none false true])).1.sched.timers,
        t.payload.isLayoutDebounce = false :=
  C5_teardown_cancels_debounce
    (PluginSt.mk
      (Sched.mk 2 [Timer.mk 0 80 (TimerKind.layoutDebounce 7),
        Timer.mk 1 100 (TimerKind.removeLeaf 0)] [])
      (some 0)
      [GraphView.mk 0 (some "A.md") false false true none false true])
    (by decide)

end GraphBanner
